import Mathlib

/-!
Verification of the Finex OCR receipt pipeline (frontend).

This file gives a shallow embedding of the OCR extraction → verification →
commit pipeline of the Finex repository:

* the Extraction Normalizer `setPendingOCRData` (Upload page,
  `uploadMutation.onSuccess`),
* the Verification Staging edit operations of `VerifyOCRModal`
  (`handleItemChange` / `handleDeleteItem` / `handleAddItem`) and the
  enabled/disabled conditions of its footer buttons,
* the commit path (`verifyMutation`, `receiptApi.verifyOCRReceipt`) and the
  query-cache invalidations performed on success,
* the numeric input coercions of `VerifyOCRModal` and `ReceiptDetailModal`,
* the client receipt store (`receiptStore.ts`).

JavaScript values are modelled as follows: a possibly-absent field is an
`Option`; a JS number is a rational (`ℚ`), with `Option ℚ` where `NaN` can
occur (`none` plays the role of `NaN`); the `x || d` defaulting idiom is
`jsOrStr` / `jsOrNum`, which takes the default exactly on the JS-falsy
values (`undefined`/`NaN`/`""`/`0`).
-/

namespace Finex

/-- JS `x || d` on an optional string: `undefined` and `""` are falsy. -/
def jsOrStr (v : Option String) (d : String) : String :=
  match v with
  | none => d
  | some s => if s = "" then d else s

/-- JS `x || d` on an optional number: `undefined`/`NaN` (= `none`) and `0`
are falsy. -/
def jsOrNum (v : Option ℚ) (d : ℚ) : ℚ :=
  match v with
  | none => d
  | some x => if x = 0 then d else x

/-- Digits of a numeral, most significant first, to a natural number. -/
def digitsToNat (ds : List Char) : Nat :=
  ds.foldl (fun acc c => 10 * acc + (c.toNat - '0'.toNat)) 0

/-- Model of JS `parseFloat` on finite decimal numerals: an optional sign
followed by digits with an optional fractional part; the longest such prefix
is parsed and the rest ignored, exactly as `parseFloat` does.  `none` models
the `NaN` result on input with no leading numeral (e.g. `"abc"`, `""`). -/
def parseFloat (s : String) : Option ℚ :=
  let signed : Bool × List Char :=
    match s.data with
    | '-' :: rest => (true, rest)
    | '+' :: rest => (false, rest)
    | cs => (false, cs)
  let intPart := signed.2.takeWhile Char.isDigit
  let afterInt := signed.2.dropWhile Char.isDigit
  let fracPart : List Char :=
    match afterInt with
    | '.' :: r => r.takeWhile Char.isDigit
    | _ => []
  if intPart.isEmpty && fracPart.isEmpty then none
  else
    let num : Int :=
      (digitsToNat intPart * 10 ^ fracPart.length + digitsToNat fracPart : Nat)
    some (mkRat (if signed.1 then -num else num) (10 ^ fracPart.length))

/-- A receipt line item (`ReceiptItem` in `VerifyOCRModal.tsx` /
`types/receipt.ts`): `category` is an optional field (`category?: string`). -/
structure Item where
  name : String
  quantity : ℚ
  price : ℚ
  total : ℚ
  category : Option String
deriving DecidableEq, Repr

/-- A single field update of one item, as dispatched by
`handleItemChange(index, field, value)` through the computed key
`[field]: value`. -/
inductive ItemField where
  | name (v : String)
  | quantity (v : ℚ)
  | price (v : ℚ)
  | total (v : ℚ)
  | category (v : String)
deriving DecidableEq, Repr

/-- `{...item, [field]: value}`: replace the named field, keep the rest. -/
def applyField (f : ItemField) (it : Item) : Item :=
  match f with
  | .name v => { it with name := v }
  | .quantity v => { it with quantity := v }
  | .price v => { it with price := v }
  | .total v => { it with total := v }
  | .category v => { it with category := some v }

/-- The three Verification Staging operations on the items list of the
staged draft (`VerifyOCRModal.tsx`). -/
inductive StagingOp where
  | setItemField (idx : Nat) (f : ItemField)
  | removeItem (idx : Nat)
  | addItem
deriving DecidableEq, Repr

/-- `handleDeleteItem`: `items.filter((_, i) => i !== index)` — keep exactly
the elements whose position differs from `idx`. -/
def removeItemJS (l : List α) (idx : Nat) : List α :=
  (l.enum.filter (fun p => p.1 ≠ idx)).map Prod.snd

/-- The new item appended by `handleAddItem`:
`{ name: '', quantity: 1, price: 0, total: 0, category: 'Other' }`. -/
def defaultNewItem : Item :=
  { name := "", quantity := 1, price := 0, total := 0, category := some "Other" }

/-- One staging operation, generic in the element type so that the same
transition function can also be run on index-tagged items
(`handleItemChange` writes `newItems[index] = {...newItems[index], [field]:
value}`, i.e. replaces the element in place; indices produced by the UI are
positions of the rendered list, hence in bounds, where `List.modify`
agrees with the JS assignment). -/
def applyOpG (ed : ItemField → α → α) (newItem : α) (l : List α) :
    StagingOp → List α
  | .setItemField idx f => l.modify (ed f) idx
  | .removeItem idx => removeItemJS l idx
  | .addItem => l ++ [newItem]

/-- The staging operations as they act on the draft's items. -/
def applyOp : List Item → StagingOp → List Item :=
  applyOpG applyField defaultNewItem

/-- A sequence of staging operations, applied left to right. -/
def applyOps : List Item → List StagingOp → List Item :=
  List.foldl applyOp

/-- Field update on an item tagged with its original position (the tag is
never touched by an edit). -/
def applyFieldT (f : ItemField) (p : Option Nat × Item) : Option Nat × Item :=
  (p.1, applyField f p.2)

/-- The staging operations on position-tagged items: freshly added items
carry no original position (`none`). -/
def applyOpT : List (Option Nat × Item) → StagingOp → List (Option Nat × Item) :=
  applyOpG applyFieldT (none, defaultNewItem)

/-- Tagged run of a sequence of staging operations. -/
def applyOpsT : List (Option Nat × Item) → List StagingOp → List (Option Nat × Item) :=
  List.foldl applyOpT

/-- Tag every item of the initial list with its position. -/
def tagItems (l : List Item) : List (Option Nat × Item) :=
  l.enum.map (fun p => (some p.1, p.2))

/-- Every index used by a `setItemField`/`removeItem` of the sequence is in
bounds at the moment the operation is applied (UI-produced indices are). -/
def validOps : List Item → List StagingOp → Bool
  | _, [] => true
  | l, op :: rest =>
    (match op with
     | .setItemField idx _ => idx < l.length
     | .removeItem idx => idx < l.length
     | .addItem => true) && validOps (applyOp l op) rest

/-- Number of `addItem` operations in a sequence. -/
def countAdds (ops : List StagingOp) : Nat :=
  (ops.filter (fun op => match op with | .addItem => true | _ => false)).length

/-- Number of `removeItem` operations in a sequence. -/
def countRemoves (ops : List StagingOp) : Nat :=
  (ops.filter (fun op => match op with | .removeItem _ => true | _ => false)).length

/-- The raw key-value extraction result carried in `uploadedFiles[0].ocrData`
(every field may be absent). -/
structure RawOCRData where
  storeName : Option String
  date : Option String
  totalAmount : Option ℚ
  taxAmount : Option ℚ
  items : Option (List Item)
  ocrStatus : Option String
  ocrMessage : Option String
deriving DecidableEq, Repr

/-- One element of the `uploadBatch` response (`uploadedFiles`): the fields
`uploadMutation.onSuccess` reads from it. -/
structure UploadedFile where
  ocrData : Option RawOCRData
  imageUrl : Option String
  id : Option String
deriving DecidableEq, Repr

/-- The normalized draft held in the Upload page's `pendingOCRData` state
(the `setPendingOCRData` call shape, Upload page lines 58–68).  Note there
is no top-level `category` field. -/
structure OCRDraft where
  storeName : String
  date : String
  totalAmount : ℚ
  taxAmount : ℚ
  items : List Item
  ocrStatus : String
  ocrMessage : String
  imageUrl : String
  receiptId : String
deriving DecidableEq, Repr

/-- The Extraction Normalizer: the `setPendingOCRData({...})` call in
`uploadMutation.onSuccess`, field by field (`x || default` on every field).
`today` stands for `new Date().toISOString().split('T')[0]`. -/
def setPendingOCRData (today : String) (firstFile : UploadedFile)
    (ocrData : RawOCRData) : OCRDraft :=
  { storeName := jsOrStr ocrData.storeName ""
    date := jsOrStr ocrData.date today
    totalAmount := jsOrNum ocrData.totalAmount 0
    taxAmount := jsOrNum ocrData.taxAmount 0
    items := ocrData.items.getD []
    ocrStatus := jsOrStr ocrData.ocrStatus "success"
    ocrMessage := jsOrStr ocrData.ocrMessage ""
    imageUrl := jsOrStr firstFile.imageUrl ""
    receiptId := jsOrStr firstFile.id "" }

/-- A JSON-ish field value, for stating which keys a serialized object
carries. -/
inductive JVal where
  | str (s : String)
  | num (q : ℚ)
  | itemList (l : List Item)
deriving DecidableEq, Repr

/-- The draft as the JS object it is: the key/value pairs of the object
literal passed to `setPendingOCRData` (and hence the exact set of keys the
draft object owns). -/
def OCRDraft.toPairs (d : OCRDraft) : List (String × JVal) :=
  [("storeName", .str d.storeName),
   ("date", .str d.date),
   ("totalAmount", .num d.totalAmount),
   ("taxAmount", .num d.taxAmount),
   ("items", .itemList d.items),
   ("ocrStatus", .str d.ocrStatus),
   ("ocrMessage", .str d.ocrMessage),
   ("imageUrl", .str d.imageUrl),
   ("receiptId", .str d.receiptId)]

/-- Key lookup in a serialized object. -/
def lookupField : List (String × JVal) → String → Option JVal
  | [], _ => none
  | (k, v) :: rest, key => if k = key then some v else lookupField rest key

/-- The body of `POST /receipts/verify`: `receiptApi.verifyOCRReceipt`
posts the confirmed `editedData` object unchanged
(`api.post('/receipts/verify', receiptData)`), so the payload is exactly
the draft's own key/value pairs. -/
def commitPayload (d : OCRDraft) : List (String × JVal) :=
  d.toPairs

/-- The Upload page state touched by the OCR pipeline handlers
(`files`, `uploadedCount`, `verifyModalOpen`, `pendingOCRData`), plus the
accumulated list of query keys passed to
`queryClient.invalidateQueries`. -/
structure UploadState where
  pendingOCRData : Option OCRDraft
  verifyModalOpen : Bool
  files : List String
  uploadedCount : Nat
  invalidated : List String
deriving DecidableEq, Repr

/-- Query keys invalidated by `verifyMutation.onSuccess`
(Upload page lines 110–111). -/
def verifySuccessInvalidatedKeys : List String :=
  ["receipts", "receipt-stats"]

/-- Query keys invalidated by `updateReceiptMutation.onSuccess`
(`Receipts.tsx` line 119). -/
def updateReceiptSuccessInvalidatedKeys : List String :=
  ["receipts"]

/-- Query keys invalidated by `deleteReceiptMutation.onSuccess`
(`Receipts.tsx` line 136). -/
def deleteReceiptSuccessInvalidatedKeys : List String :=
  ["receipts"]

/-- The query keys under which cached aggregate views over the receipt
collection live: the Dashboard caches `receiptApi.getStats` under
`['receipt-stats', …]` (totals, category breakdown, top stores) and
`analyticsApi.getAnalytics` under `['analytics', …]` (merchant rankings,
trend series). -/
def aggregateViewQueryKeys : List String :=
  ["receipt-stats", "analytics"]

/-- `uploadMutation.onSuccess(uploadedFiles)` (Upload page lines 48–81):
only `uploadedFiles[0]` is examined; when it carries `ocrData` the
verification modal is opened on its normalized draft, otherwise the batch
is treated as saved and the receipt caches are invalidated. -/
def uploadOnSuccess (today : String) (uploadedFiles : List UploadedFile)
    (st : UploadState) : UploadState :=
  match uploadedFiles with
  | [] => st
  | firstFile :: rest =>
    match firstFile.ocrData with
    | some ocrData =>
      { st with
        pendingOCRData := some (setPendingOCRData today firstFile ocrData)
        verifyModalOpen := true
        uploadedCount := (firstFile :: rest).length }
    | none =>
      { st with
        invalidated := st.invalidated ++ ["receipts", "receipt-stats"]
        files := []
        uploadedCount := (firstFile :: rest).length }

/-- `verifyMutation.onSuccess` (Upload page lines 105–113): close the
modal, clear the file list, discard the draft, invalidate the receipt
caches. -/
def verifyOnSuccess (st : UploadState) : UploadState :=
  { st with
    verifyModalOpen := false
    files := []
    pendingOCRData := none
    invalidated := st.invalidated ++ verifySuccessInvalidatedKeys
    uploadedCount := 1 }

/-- `verifyMutation.onError` (Upload page lines 114–116): only a toast is
shown; no state named above changes. -/
def verifyOnError (st : UploadState) : UploadState :=
  st

/-- `handleCancelVerify` (Upload page lines 158–161). -/
def handleCancelVerify (st : UploadState) : UploadState :=
  { st with verifyModalOpen := false, pendingOCRData := none }

/-- One commit attempt of the confirmed draft: `handleVerifyOCR` runs
`verifyMutation.mutate`, whose settlement invokes `onSuccess` or
`onError`. -/
def confirmDraft (st : UploadState) (succeeded : Bool) : UploadState :=
  if succeeded then verifyOnSuccess st else verifyOnError st

/-- The user-driven events that can settle an open verification session. -/
inductive SessionEvent where
  | confirmOk
  | confirmFail
  | cancel
deriving DecidableEq, Repr

/-- Effect of one session event on the Upload page state. -/
def sessionStep (st : UploadState) : SessionEvent → UploadState
  | .confirmOk => verifyOnSuccess st
  | .confirmFail => verifyOnError st
  | .cancel => handleCancelVerify st

/-- All states visited along a run of session events. -/
def runSession : UploadState → List SessionEvent → List UploadState
  | st, [] => [st]
  | st, e :: es => st :: runSession (sessionStep st e) es

/-- The draft the verification modal currently presents, if any:
`<VerifyOCRModal isOpen={verifyModalOpen} data={pendingOCRData || …}>`
renders nothing when `isOpen` is false. -/
def presentedDraft (st : UploadState) : Option OCRDraft :=
  if st.verifyModalOpen then st.pendingOCRData else none

/-- Every draft presented at some state of a run. -/
def presentedAlong (st : UploadState) (evs : List SessionEvent) : List OCRDraft :=
  (runSession st evs).filterMap presentedDraft

/-- `d` is never shown by the verification modal, whatever the user does
for the rest of the session. -/
def draftNeverPresented (st : UploadState) (d : OCRDraft) : Prop :=
  ∀ evs : List SessionEvent, d ∉ presentedAlong st evs

/-- The Upload page's initial state. -/
def initUploadState : UploadState :=
  { pendingOCRData := none, verifyModalOpen := false, files := [],
    uploadedCount := 0, invalidated := [] }

/-! ### VerifyOCRModal footer buttons and numeric input coercions -/

/-- Footer `Edit` button in read-only mode (`VerifyOCRModal.tsx` line 416):
`disabled={data.ocrStatus === 'error'}`. -/
def editButtonEnabled (ocrStatus : String) : Bool :=
  !(ocrStatus == "error")

/-- `Verify & Save` button in read-only mode (line 424):
`disabled={isLoading || data.ocrStatus === 'error'}`. -/
def verifySaveEnabled (ocrStatus : String) (isLoading : Bool) : Bool :=
  !(isLoading || ocrStatus == "error")

/-- `Save Changes & Verify` button in edit mode (line 444):
`disabled={isLoading}` — no condition on the OCR status or on whether
any field was actually changed. -/
def saveChangesEnabled (isLoading : Bool) : Bool :=
  !isLoading

/-- The `Edit & Add Items` affordance of the empty-items warning box
(lines 378–399): rendered when `editedData.items.length === 0` and not in
edit mode; it is never disabled. -/
def emptyItemsEditShown (items : List Item) (editMode : Bool) : Bool :=
  items.isEmpty && !editMode

/-- Coercion applied by the `Total` input of `VerifyOCRModal` (line 209):
`parseFloat(e.target.value) || 0`. -/
def totalAmountInput (s : String) : ℚ :=
  jsOrNum (parseFloat s) 0

/-- Coercion applied by the `Tax Amount` input of `VerifyOCRModal`
(line 228): `parseFloat(e.target.value) || 0`. -/
def taxAmountInput (s : String) : ℚ :=
  jsOrNum (parseFloat s) 0

/-- Coercion applied by the item `Qty` input of `VerifyOCRModal`
(line 311): `parseFloat(e.target.value) || 1`. -/
def quantityInput (s : String) : ℚ :=
  jsOrNum (parseFloat s) 1

/-- Coercion applied by the item `Price` input of `VerifyOCRModal`
(line 327): `parseFloat(e.target.value) || 0`.  The item `Total` input
(line 343) is `readOnly` and has no change handler at all. -/
def priceInput (s : String) : ℚ :=
  jsOrNum (parseFloat s) 0

/-- Numeric inputs of `ReceiptDetailModal` (part_002 lines 480, 499, 532,
541, 549; totalAmount, taxAmount, item quantity/price/total): bare
`parseFloat(e.target.value)` with no fallback, so non-numeric input is
stored as `NaN` (modelled as `none`). -/
def detailNumberInput (s : String) : Option ℚ :=
  parseFloat s

/-! ### Client receipt store (`receiptStore.ts`) -/

/-- The durable `Receipt` shape (`types/receipt.ts`). -/
structure Receipt where
  id : String
  storeName : String
  date : String
  totalAmount : ℚ
  taxAmount : ℚ
  category : String
  items : List Item
  imageUrl : String
  thumbnailUrl : Option String
  tags : List String
  notes : Option String
  createdAt : String
  updatedAt : String
deriving DecidableEq, Repr

/-- `Partial<Receipt>`: the `updates` argument of the store's
`updateReceipt`. -/
structure ReceiptUpdate where
  id : Option String
  storeName : Option String
  date : Option String
  totalAmount : Option ℚ
  taxAmount : Option ℚ
  category : Option String
  items : Option (List Item)
  imageUrl : Option String
  thumbnailUrl : Option (Option String)
  tags : Option (List String)
  notes : Option (Option String)
  createdAt : Option String
  updatedAt : Option String
deriving DecidableEq, Repr

/-- JS `{ ...r, ...updates }`: fields present in `updates` win. -/
def mergeReceipt (r : Receipt) (u : ReceiptUpdate) : Receipt :=
  { id := u.id.getD r.id
    storeName := u.storeName.getD r.storeName
    date := u.date.getD r.date
    totalAmount := u.totalAmount.getD r.totalAmount
    taxAmount := u.taxAmount.getD r.taxAmount
    category := u.category.getD r.category
    items := u.items.getD r.items
    imageUrl := u.imageUrl.getD r.imageUrl
    thumbnailUrl := u.thumbnailUrl.getD r.thumbnailUrl
    tags := u.tags.getD r.tags
    notes := u.notes.getD r.notes
    createdAt := u.createdAt.getD r.createdAt
    updatedAt := u.updatedAt.getD r.updatedAt }

/-- `receiptStore.updateReceipt`:
`receipts.map(r => r.id === id ? { ...r, ...updates } : r)`. -/
def updateReceipt (id : String) (updates : ReceiptUpdate)
    (receipts : List Receipt) : List Receipt :=
  receipts.map (fun r => if r.id = id then mergeReceipt r updates else r)

/-- `receiptStore.deleteReceipt`: `receipts.filter(r => r.id !== id)`. -/
def deleteReceipt (id : String) (receipts : List Receipt) : List Receipt :=
  receipts.filter (fun r => r.id ≠ id)

/-! ### Concrete sample data -/

/-- A sample line item. -/
def itemEx : Item :=
  { name := "Coffee", quantity := 1, price := 3, total := 3,
    category := some "Dining" }

/-- The extraction result of the §8 scenario: storeName "Cafe X", date
missing, totalAmount 250, items [], ocrStatus "success". -/
def rawCafeX : RawOCRData :=
  { storeName := some "Cafe X", date := none, totalAmount := some 250,
    taxAmount := none, items := some [], ocrStatus := some "success",
    ocrMessage := none }

/-- The uploaded file carrying `rawCafeX`. -/
def fileCafeX : UploadedFile :=
  { ocrData := some rawCafeX, imageUrl := none, id := none }

/-- An extraction result with every field absent. -/
def rawAllMissing : RawOCRData :=
  { storeName := none, date := none, totalAmount := none, taxAmount := none,
    items := none, ocrStatus := none, ocrMessage := none }

/-- An uploaded file with every field absent except an all-missing
extraction result. -/
def fileAllMissing : UploadedFile :=
  { ocrData := some rawAllMissing, imageUrl := none, id := none }

/-- Extraction result of the first file of a two-file batch. -/
def rawOcr1 : RawOCRData :=
  { storeName := some "Store One", date := some "2026-10-01",
    totalAmount := some 10, taxAmount := some 1, items := some [],
    ocrStatus := some "success", ocrMessage := none }

/-- Extraction result of the second file of a two-file batch. -/
def rawOcr2 : RawOCRData :=
  { storeName := some "Store Two", date := some "2026-10-02",
    totalAmount := some 20, taxAmount := some 2, items := some [],
    ocrStatus := some "success", ocrMessage := none }

/-- First file of a two-file batch. -/
def file1 : UploadedFile :=
  { ocrData := some rawOcr1, imageUrl := some "img1", id := some "id1" }

/-- Second file of a two-file batch. -/
def file2 : UploadedFile :=
  { ocrData := some rawOcr2, imageUrl := some "img2", id := some "id2" }

/-- A concrete confirmed draft. -/
def draftEx : OCRDraft :=
  { storeName := "Cafe X", date := "2026-10-11", totalAmount := 250,
    taxAmount := 0, items := [], ocrStatus := "success", ocrMessage := "",
    imageUrl := "", receiptId := "" }

/-- A sample persisted receipt with id "a". -/
def receiptA : Receipt :=
  { id := "a", storeName := "Alpha", date := "2026-01-01", totalAmount := 1,
    taxAmount := 0, category := "Other", items := [], imageUrl := "",
    thumbnailUrl := none, tags := [], notes := none, createdAt := "",
    updatedAt := "" }

/-- A sample persisted receipt with id "b". -/
def receiptB : Receipt :=
  { id := "b", storeName := "Beta", date := "2026-01-02", totalAmount := 2,
    taxAmount := 0, category := "Other", items := [], imageUrl := "",
    thumbnailUrl := none, tags := [], notes := none, createdAt := "",
    updatedAt := "" }

/-- A partial update that renames the store. -/
def updateEx : ReceiptUpdate :=
  { id := none, storeName := some "Gamma", date := none, totalAmount := none,
    taxAmount := none, category := none, items := none, imageUrl := none,
    thumbnailUrl := none, tags := none, notes := none, createdAt := none,
    updatedAt := none }

/-! ## Theorems -/

/-- **C1** (amended): the Normalizer fills every field of the draft with a
typed default — missing storeName ↦ `""`, missing date ↦ today, missing
totalAmount/taxAmount ↦ `0`, missing items ↦ `[]` — and on the §8 scenario
input produces exactly the draft
`{storeName := "Cafe X", date := today, totalAmount := 250, taxAmount := 0,
items := [], ocrStatus := "success", …}`.  The amendment: the draft carries
no top-level `category` field at all (category exists only per item), so
the claimed `category: "Other"` component of the output does not exist. -/
theorem normalizer_fills_typed_defaults (today : String) (file : UploadedFile)
    (raw : RawOCRData) :
    (raw.storeName = none → (setPendingOCRData today file raw).storeName = "")
    ∧ (raw.date = none → (setPendingOCRData today file raw).date = today)
    ∧ (raw.totalAmount = none → (setPendingOCRData today file raw).totalAmount = 0)
    ∧ (raw.taxAmount = none → (setPendingOCRData today file raw).taxAmount = 0)
    ∧ (raw.items = none → (setPendingOCRData today file raw).items = [])
    ∧ setPendingOCRData today fileCafeX rawCafeX =
        { storeName := "Cafe X", date := today, totalAmount := 250,
          taxAmount := 0, items := [], ocrStatus := "success",
          ocrMessage := "", imageUrl := "", receiptId := "" } := by
  refine ⟨?_, ?_, ?_, ?_, ?_, ?_⟩
  · intro h; simp [setPendingOCRData, jsOrStr, h]
  · intro h; simp [setPendingOCRData, jsOrStr, h]
  · intro h; simp [setPendingOCRData, jsOrNum, h]
  · intro h; simp [setPendingOCRData, jsOrNum, h]
  · intro h; simp [setPendingOCRData, h]
  · simp [setPendingOCRData, fileCafeX, rawCafeX, jsOrStr, jsOrNum]

/-- Witness for `normalizer_fills_typed_defaults` at the all-missing
extraction result and today = "2026-10-11". -/
theorem normalizer_fills_typed_defaults_witness :
    rawAllMissing.storeName = none
    ∧ (setPendingOCRData "2026-10-11" fileAllMissing rawAllMissing).storeName = ""
    ∧ rawAllMissing.date = none
    ∧ (setPendingOCRData "2026-10-11" fileAllMissing rawAllMissing).date = "2026-10-11"
    ∧ rawAllMissing.totalAmount = none
    ∧ (setPendingOCRData "2026-10-11" fileAllMissing rawAllMissing).totalAmount = 0
    ∧ rawAllMissing.taxAmount = none
    ∧ (setPendingOCRData "2026-10-11" fileAllMissing rawAllMissing).taxAmount = 0
    ∧ rawAllMissing.items = none
    ∧ (setPendingOCRData "2026-10-11" fileAllMissing rawAllMissing).items = [] :=
  ⟨rfl,
   (normalizer_fills_typed_defaults "2026-10-11" fileAllMissing rawAllMissing).1 rfl,
   rfl,
   (normalizer_fills_typed_defaults "2026-10-11" fileAllMissing rawAllMissing).2.1 rfl,
   rfl,
   (normalizer_fills_typed_defaults "2026-10-11" fileAllMissing rawAllMissing).2.2.1 rfl,
   rfl,
   (normalizer_fills_typed_defaults "2026-10-11" fileAllMissing rawAllMissing).2.2.2.1 rfl,
   rfl,
   (normalizer_fills_typed_defaults "2026-10-11" fileAllMissing rawAllMissing).2.2.2.2.1 rfl⟩

/-- **C1** counterexample: on the §8 scenario input the Normalizer's output
object has no `category` key at all, so the claimed output
`{…, category: "Other"}` is not what the code produces. -/
theorem normalizer_output_lacks_category_cx :
    lookupField
      (OCRDraft.toPairs (setPendingOCRData "2026-10-11" fileCafeX rawCafeX))
      "category" = none := by
  rfl

/-- **C2**: a failed commit leaves the Upload page state — in particular the
staged draft and the open modal — completely unchanged, so re-invoking
confirm runs the very same attempt again; only a successful commit discards
the draft and closes the modal. -/
theorem commit_failure_retains_draft (st : UploadState) :
    confirmDraft st false = st
    ∧ confirmDraft (confirmDraft st false) true = confirmDraft st true
    ∧ (confirmDraft st true).pendingOCRData = none
    ∧ (confirmDraft st true).verifyModalOpen = false := by
  refine ⟨rfl, rfl, ?_, ?_⟩ <;> simp [confirmDraft, verifyOnSuccess]

/-- **C7** (amended): the commit payload is the confirmed draft object
passed through unchanged, so it still carries the `ocrStatus` and
`ocrMessage` keys — nothing is stripped client-side. -/
theorem commit_payload_keeps_ocr_fields (d : OCRDraft) :
    commitPayload d = d.toPairs
    ∧ lookupField (commitPayload d) "ocrStatus" = some (.str d.ocrStatus)
    ∧ lookupField (commitPayload d) "ocrMessage" = some (.str d.ocrMessage) := by
  refine ⟨rfl, ?_, ?_⟩ <;> rfl

/-- **C7** counterexample: for a concrete confirmed draft the posted body
contains the `ocrStatus` and `ocrMessage` keys, contradicting "those two
fields … are never included in the commit payload". -/
theorem commit_payload_not_stripped_cx :
    lookupField (commitPayload draftEx) "ocrStatus" = some (.str "success")
    ∧ lookupField (commitPayload draftEx) "ocrMessage" = some (.str "") := by
  exact ⟨rfl, rfl⟩

/-- **C8** (amended): a successful commit invalidates exactly the
`receipts` and `receipt-stats` caches; successful update and delete of a
persisted receipt invalidate only `receipts`.  Hence among the cached
aggregate views, `receipt-stats` is refreshed only on the commit path and
the `analytics` cache (merchant rankings, trend series) is refreshed on no
path at all. -/
theorem cache_invalidation_per_mutation (st : UploadState) :
    (verifyOnSuccess st).invalidated = st.invalidated ++ verifySuccessInvalidatedKeys
    ∧ verifySuccessInvalidatedKeys = ["receipts", "receipt-stats"]
    ∧ updateReceiptSuccessInvalidatedKeys = ["receipts"]
    ∧ deleteReceiptSuccessInvalidatedKeys = ["receipts"]
    ∧ "receipt-stats" ∈ aggregateViewQueryKeys
    ∧ "receipt-stats" ∉ updateReceiptSuccessInvalidatedKeys
    ∧ "receipt-stats" ∉ deleteReceiptSuccessInvalidatedKeys
    ∧ "analytics" ∈ aggregateViewQueryKeys
    ∧ "analytics" ∉ verifySuccessInvalidatedKeys := by
  refine ⟨rfl, rfl, rfl, rfl, ?_, ?_, ?_, ?_, ?_⟩ <;> decide

/-- **C8** counterexample: the `analytics` aggregate cache is not
invalidated even by a successful commit, and the `receipt-stats` aggregate
cache is not invalidated by update or delete of a persisted receipt. -/
theorem cache_invalidation_incomplete_cx :
    ("analytics" ∈ aggregateViewQueryKeys
      ∧ "analytics" ∉ verifySuccessInvalidatedKeys)
    ∧ ("receipt-stats" ∈ aggregateViewQueryKeys
      ∧ "receipt-stats" ∉ updateReceiptSuccessInvalidatedKeys
      ∧ "receipt-stats" ∉ deleteReceiptSuccessInvalidatedKeys) := by
  decide

/-- **C9**: when the extraction response omits `ocrStatus` or reports it as
the empty string, the Normalizer sets the draft's `ocrStatus` to
`"success"`, and for such a draft the read-only-mode `Verify & Save` and
`Edit` buttons are enabled exactly as for a successful extraction, so it
may be confirmed without any edit. -/
theorem missing_ocr_status_defaults_to_success (today : String)
    (file : UploadedFile) (raw : RawOCRData)
    (h : raw.ocrStatus = none ∨ raw.ocrStatus = some "") :
    (setPendingOCRData today file raw).ocrStatus = "success"
    ∧ verifySaveEnabled (setPendingOCRData today file raw).ocrStatus false = true
    ∧ editButtonEnabled (setPendingOCRData today file raw).ocrStatus = true := by
  have hs : (setPendingOCRData today file raw).ocrStatus = "success" := by
    rcases h with h | h <;> simp [setPendingOCRData, jsOrStr, h]
  refine ⟨hs, ?_, ?_⟩ <;> rw [hs] <;> rfl

/-- Witness for `missing_ocr_status_defaults_to_success` at the all-missing
extraction result. -/
theorem missing_ocr_status_defaults_to_success_witness :
    (rawAllMissing.ocrStatus = none ∨ rawAllMissing.ocrStatus = some "")
    ∧ (setPendingOCRData "2026-10-11" fileAllMissing rawAllMissing).ocrStatus = "success"
    ∧ verifySaveEnabled
        (setPendingOCRData "2026-10-11" fileAllMissing rawAllMissing).ocrStatus false = true
    ∧ editButtonEnabled
        (setPendingOCRData "2026-10-11" fileAllMissing rawAllMissing).ocrStatus = true :=
  ⟨Or.inl rfl,
   (missing_ocr_status_defaults_to_success "2026-10-11" fileAllMissing rawAllMissing
     (Or.inl rfl)).1,
   (missing_ocr_status_defaults_to_success "2026-10-11" fileAllMissing rawAllMissing
     (Or.inl rfl)).2.1,
   (missing_ocr_status_defaults_to_success "2026-10-11" fileAllMissing rawAllMissing
     (Or.inl rfl)).2.2⟩

/-- **C5** (amended): when the draft's `ocrStatus` is `error` and the modal
is in read-only mode, the `Verify & Save` button **and** the footer `Edit`
button are both disabled; the only way into edit mode is the
`Edit & Add Items` affordance, which is shown exactly when the items list
is empty; and once in edit mode the save button is enabled whenever no
commit is in flight, regardless of whether anything was edited. -/
theorem error_status_disables_confirm_and_edit (ocrStatus : String)
    (items : List Item) (isLoading : Bool) (h : ocrStatus = "error") :
    editButtonEnabled ocrStatus = false
    ∧ verifySaveEnabled ocrStatus isLoading = false
    ∧ (emptyItemsEditShown items false = true ↔ items = [])
    ∧ saveChangesEnabled false = true := by
  subst h
  refine ⟨rfl, ?_, ?_, rfl⟩
  · cases isLoading <;> rfl
  · simp [emptyItemsEditShown, List.isEmpty_iff]

/-- Witness for `error_status_disables_confirm_and_edit` at status "error",
a one-item list and a commit in flight. -/
theorem error_status_disables_confirm_and_edit_witness :
    ("error" : String) = "error"
    ∧ editButtonEnabled "error" = false
    ∧ verifySaveEnabled "error" true = false
    ∧ (emptyItemsEditShown [itemEx] false = true ↔ [itemEx] = [])
    ∧ saveChangesEnabled false = true :=
  ⟨rfl,
   (error_status_disables_confirm_and_edit "error" [itemEx] true rfl).1,
   (error_status_disables_confirm_and_edit "error" [itemEx] true rfl).2.1,
   (error_status_disables_confirm_and_edit "error" [itemEx] true rfl).2.2.1,
   (error_status_disables_confirm_and_edit "error" [itemEx] true rfl).2.2.2⟩

/-- **C5** counterexample: for an error-status draft with a non-empty items
list, every edit entry point is unavailable — the footer `Edit` button is
disabled and the `Edit & Add Items` affordance is not rendered — so "the
edit path remains available in that state" is false; moreover, in edit mode
the save button is enabled with no intervening edit required. -/
theorem error_status_edit_unavailable_cx :
    editButtonEnabled "error" = false
    ∧ emptyItemsEditShown [itemEx] false = false
    ∧ verifySaveEnabled "error" false = false
    ∧ saveChangesEnabled false = true := by
  exact ⟨rfl, rfl, rfl, rfl⟩

/-- **C4** (amended): in the verification modal, non-numeric input to
totalAmount, taxAmount and item price is coerced to 0 — in particular
`setItemField(0, 'price', "abc")` stores price 0 — but non-numeric item
quantity is coerced to 1, not 0 (the item total input is read-only there);
and in the persisted-receipt detail modal the numeric inputs apply bare
`parseFloat`, storing `NaN` rather than 0. -/
theorem nonnumeric_input_coercion (s : String) (h : parseFloat s = none) :
    totalAmountInput s = 0
    ∧ taxAmountInput s = 0
    ∧ priceInput s = 0
    ∧ quantityInput s = 1
    ∧ detailNumberInput s = none
    ∧ (applyOp [itemEx] (.setItemField 0 (.price (priceInput s)))).map
        Item.price = [0] := by
  have hp : priceInput s = 0 := by simp [priceInput, jsOrNum, h]
  refine ⟨by simp [totalAmountInput, jsOrNum, h],
          by simp [taxAmountInput, jsOrNum, h], hp,
          by simp [quantityInput, jsOrNum, h],
          by simp [detailNumberInput, h], ?_⟩
  rw [hp]
  rfl

/-- Witness for `nonnumeric_input_coercion` at the literal input "abc". -/
theorem nonnumeric_input_coercion_witness :
    parseFloat "abc" = none
    ∧ totalAmountInput "abc" = 0
    ∧ taxAmountInput "abc" = 0
    ∧ priceInput "abc" = 0
    ∧ quantityInput "abc" = 1
    ∧ detailNumberInput "abc" = none
    ∧ (applyOp [itemEx] (.setItemField 0 (.price (priceInput "abc")))).map
        Item.price = [0] :=
  ⟨by decide,
   (nonnumeric_input_coercion "abc" (by decide)).1,
   (nonnumeric_input_coercion "abc" (by decide)).2.1,
   (nonnumeric_input_coercion "abc" (by decide)).2.2.1,
   (nonnumeric_input_coercion "abc" (by decide)).2.2.2.1,
   (nonnumeric_input_coercion "abc" (by decide)).2.2.2.2.1,
   (nonnumeric_input_coercion "abc" (by decide)).2.2.2.2.2⟩

/-- **C4** counterexample: a non-numeric quantity edit on the staged draft
stores 1, not 0, and a non-numeric price edit in the persisted-receipt
detail modal stores `NaN` (modelled `none`), not 0 — so "non-numeric input
is coerced to 0" fails for those fields. -/
theorem nonnumeric_quantity_not_zero_cx :
    quantityInput "abc" = 1
    ∧ quantityInput "abc" ≠ 0
    ∧ detailNumberInput "abc" ≠ some 0 := by
  refine ⟨by decide, by decide, by decide⟩

/-- **C10**: the store's `updateReceipt` preserves the length and order of
the receipts list and leaves every receipt whose id differs from the given
id unchanged, and `deleteReceipt` removes exactly the receipts whose id
equals the given id, preserving the relative order of the rest. -/
theorem receipt_store_update_delete_frame (id : String) (u : ReceiptUpdate)
    (receipts : List Receipt) :
    (updateReceipt id u receipts).length = receipts.length
    ∧ (∀ (i : Nat) (r : Receipt), receipts[i]? = some r → r.id ≠ id →
        (updateReceipt id u receipts)[i]? = some r)
    ∧ (deleteReceipt id receipts).Sublist receipts
    ∧ (∀ r, r ∈ deleteReceipt id receipts → r.id ≠ id)
    ∧ (∀ r, r ∈ receipts → r.id ≠ id → r ∈ deleteReceipt id receipts) := by
  refine ⟨by simp [updateReceipt], ?_, List.filter_sublist receipts, ?_, ?_⟩
  · intro i r hr hne
    rw [updateReceipt, List.getElem?_map, hr]
    simp [hne]
  · intro r hr
    have := (List.mem_filter.mp hr).2
    simpa using this
  · intro r hr hne
    exact List.mem_filter.mpr ⟨hr, by simpa using hne⟩

/-- Witness for `receipt_store_update_delete_frame` on a two-receipt list,
updating and deleting id "a" and checking the receipt with id "b". -/
theorem receipt_store_update_delete_frame_witness :
    ([receiptA, receiptB] : List Receipt)[1]? = some receiptB
    ∧ receiptB.id ≠ "a"
    ∧ (updateReceipt "a" updateEx [receiptA, receiptB])[1]? = some receiptB
    ∧ receiptB ∈ ([receiptA, receiptB] : List Receipt)
    ∧ receiptB ∈ deleteReceipt "a" [receiptA, receiptB] :=
  ⟨rfl, by decide,
   (receipt_store_update_delete_frame "a" updateEx [receiptA, receiptB]).2.1
     1 receiptB rfl (by decide),
   by decide,
   (receipt_store_update_delete_frame "a" updateEx [receiptA, receiptB]).2.2.2.2
     receiptB (by decide) (by decide)⟩

/-- No session event ever installs a new draft: stepping preserves "the
pending draft is `d1` or has been discarded". -/
theorem sessionStep_pending (st : UploadState) (e : SessionEvent) (d1 : OCRDraft)
    (h : st.pendingOCRData = some d1 ∨ st.pendingOCRData = none) :
    (sessionStep st e).pendingOCRData = some d1
    ∨ (sessionStep st e).pendingOCRData = none := by
  cases e
  · exact Or.inr rfl
  · exact h
  · exact Or.inr rfl

/-- The pending-draft invariant holds at every state of a session run. -/
theorem runSession_pending (d1 : OCRDraft) :
    ∀ (evs : List SessionEvent) (st : UploadState),
      st.pendingOCRData = some d1 ∨ st.pendingOCRData = none →
      ∀ s ∈ runSession st evs,
        s.pendingOCRData = some d1 ∨ s.pendingOCRData = none := by
  intro evs
  induction evs with
  | nil =>
    intro st h s hs
    rw [runSession, List.mem_singleton] at hs
    exact hs ▸ h
  | cons e es ih =>
    intro st h s hs
    rw [runSession] at hs
    rcases List.mem_cons.mp hs with h1 | h1
    · exact h1 ▸ h
    · exact ih (sessionStep st e) (sessionStep_pending st e d1 h) s h1

/-- Any draft the modal ever shows during a session run is the draft that
was pending when the run started. -/
theorem presentedAlong_mem (d1 : OCRDraft) (evs : List SessionEvent)
    (st : UploadState)
    (h : st.pendingOCRData = some d1 ∨ st.pendingOCRData = none)
    (d : OCRDraft) (hd : d ∈ presentedAlong st evs) : d = d1 := by
  obtain ⟨s, hs, hfs⟩ := List.mem_filterMap.mp hd
  have hinv := runSession_pending d1 evs st h s hs
  rw [presentedDraft] at hfs
  rcases hinv with hp | hp <;> rw [hp] at hfs
  · split at hfs
    · exact (Option.some_injective _ hfs).symm
    · cases hfs
  · split at hfs <;> cases hfs

/-- **C6** (amended): the verification modal shows at most one draft at a
time, but for a batch upload only the first file's draft is ever presented:
`uploadMutation.onSuccess` reads only `uploadedFiles[0]`, and no queue of
later drafts exists, so whatever the user does for the rest of the session
every presented draft is the normalized first file. -/
theorem batch_presents_only_first_draft (today : String) (f : UploadedFile)
    (rest : List UploadedFile) (ocr : RawOCRData) (evs : List SessionEvent)
    (h : f.ocrData = some ocr) (d : OCRDraft)
    (hd : d ∈ presentedAlong
      (uploadOnSuccess today (f :: rest) initUploadState) evs) :
    d = setPendingOCRData today f ocr := by
  apply presentedAlong_mem (setPendingOCRData today f ocr) evs _ _ d hd
  left
  simp [uploadOnSuccess, h]

/-- Witness for `batch_presents_only_first_draft` on a concrete two-file
batch and a failed-then-retried session. -/
theorem batch_presents_only_first_draft_witness :
    file1.ocrData = some rawOcr1
    ∧ setPendingOCRData "2026-10-11" file1 rawOcr1 ∈
        presentedAlong (uploadOnSuccess "2026-10-11" [file1, file2] initUploadState)
          [SessionEvent.confirmFail]
    ∧ setPendingOCRData "2026-10-11" file1 rawOcr1
        = setPendingOCRData "2026-10-11" file1 rawOcr1 :=
  ⟨rfl, by decide,
   batch_presents_only_first_draft "2026-10-11" file1 [file2] rawOcr1
     [SessionEvent.confirmFail] rfl _ (by decide)⟩

/-- **C6** counterexample: after uploading the concrete batch
`[file1, file2]`, the second file's draft is never presented, whatever the
user does — it was dropped, not queued — while the modal shows the first
file's draft; this contradicts "every file's draft is presented … no
uploaded file's draft is silently skipped". -/
theorem second_batch_file_never_presented_cx :
    file2.ocrData = some rawOcr2
    ∧ draftNeverPresented
        (uploadOnSuccess "2026-10-11" [file1, file2] initUploadState)
        (setPendingOCRData "2026-10-11" file2 rawOcr2)
    ∧ presentedDraft (uploadOnSuccess "2026-10-11" [file1, file2] initUploadState)
        = some (setPendingOCRData "2026-10-11" file1 rawOcr1) := by
  refine ⟨rfl, ?_, rfl⟩
  intro evs hmem
  have h2 := presentedAlong_mem (setPendingOCRData "2026-10-11" file1 rawOcr1)
    evs _ (Or.inl rfl) _ hmem
  exact absurd h2 (by decide)

/-- Positions listed by `enumFrom` start at the given offset. -/
theorem enumFrom_fst_ge : ∀ (l : List α) (n : Nat), ∀ p ∈ List.enumFrom n l, n ≤ p.1 := by
  intro l
  induction l with
  | nil =>
    intro n p hp
    simp [List.enumFrom] at hp
  | cons a t ih =>
    intro n p hp
    rw [List.enumFrom_cons] at hp
    rcases List.mem_cons.mp hp with h | h
    · subst h
      exact Nat.le_refl n
    · exact Nat.le_of_succ_le (ih (n + 1) p h)

/-- The JS index filter `filter((_, i) => i !== index)` drops exactly the
element at the given position. -/
theorem filter_enumFrom_ne : ∀ (l : List α) (n i : Nat),
    ((List.enumFrom n l).filter (fun p => p.1 ≠ n + i)).map Prod.snd
      = l.take i ++ l.drop (i + 1) := by
  intro l
  induction l with
  | nil =>
    intro n i
    simp
  | cons a t ih =>
    intro n i
    rw [List.enumFrom_cons, List.filter_cons]
    cases i with
    | zero =>
      have hc : (decide ((n, a).1 ≠ n + 0)) = false := by simp
      rw [hc]
      have hall : ∀ p ∈ List.enumFrom (n + 1) t, (decide (p.1 ≠ n + 0)) = true := by
        intro p hp
        have hge := enumFrom_fst_ge t (n + 1) p hp
        simp
        omega
      rw [if_neg (by simp), List.filter_eq_self.mpr hall, List.enumFrom_map_snd]
      simp
    | succ j =>
      rw [if_pos (by simp), List.map_cons]
      have harg : n + (j + 1) = (n + 1) + j := by omega
      rw [harg, ih (n + 1) j]
      simp

/-- `removeItemJS` is "drop the element at position `i`". -/
theorem removeItemJS_eq_take_drop (l : List α) (i : Nat) :
    removeItemJS l i = l.take i ++ l.drop (i + 1) := by
  rw [removeItemJS, List.enum_eq_enumFrom]
  have h := filter_enumFrom_ne l 0 i
  simpa using h

/-- Removing one position yields a sublist (relative order preserved). -/
theorem removeItemJS_sublist (l : List α) (i : Nat) :
    (removeItemJS l i).Sublist l := by
  rw [removeItemJS_eq_take_drop]
  have h1 : (l.drop (i + 1)).Sublist (l.drop i) := by
    have h := List.drop_sublist 1 (l.drop i)
    rwa [List.drop_drop] at h
  have h2 := h1.append_left (l.take i)
  rwa [List.take_append_drop] at h2

/-- An in-bounds remove shortens the list by exactly one. -/
theorem removeItemJS_length_of_lt (l : List α) (i : Nat) (h : i < l.length) :
    (removeItemJS l i).length + 1 = l.length := by
  rw [removeItemJS_eq_take_drop]
  simp
  omega

/-- `List.modify` with the identity is the identity. -/
theorem modify_id_eq : ∀ (i : Nat) (m : List β), m.modify id i = m := by
  intro i m
  induction m generalizing i with
  | nil => rw [List.modify_nil]
  | cons a t ih =>
    cases i with
    | zero => rw [List.modify_zero_cons]; rfl
    | succ j => rw [List.modify_succ_cons, ih]

/-- Mapping commutes with an in-place modification that it simulates. -/
theorem map_modify_comm (g : α → β) (f : α → α) (f2 : β → β)
    (hcomm : ∀ a, g (f a) = f2 (g a)) :
    ∀ (i : Nat) (l : List α), (l.modify f i).map g = (l.map g).modify f2 i := by
  intro i l
  induction l generalizing i with
  | nil => rw [List.modify_nil, List.map_nil, List.modify_nil]
  | cons a t ih =>
    cases i with
    | zero =>
      rw [List.modify_zero_cons, List.map_cons, List.map_cons,
        List.modify_zero_cons, hcomm]
    | succ j =>
      rw [List.modify_succ_cons, List.map_cons, List.map_cons,
        List.modify_succ_cons, ih]

/-- Untagging commutes with one staging operation. -/
theorem snd_applyOpT (l : List (Option Nat × Item)) (op : StagingOp) :
    (applyOpT l op).map Prod.snd = applyOp (l.map Prod.snd) op := by
  cases op with
  | setItemField idx f =>
    exact map_modify_comm Prod.snd (applyFieldT f) (applyField f)
      (fun p => rfl) idx l
  | removeItem idx =>
    show (removeItemJS l idx).map Prod.snd = removeItemJS (l.map Prod.snd) idx
    rw [removeItemJS_eq_take_drop, removeItemJS_eq_take_drop, List.map_append,
      List.map_take, List.map_drop]
  | addItem =>
    show (l ++ [((none : Option Nat), defaultNewItem)]).map Prod.snd
      = l.map Prod.snd ++ [defaultNewItem]
    simp

/-- Untagging commutes with a whole sequence of staging operations. -/
theorem snd_applyOpsT : ∀ (ops : List StagingOp) (l : List (Option Nat × Item)),
    (applyOpsT l ops).map Prod.snd = applyOps (l.map Prod.snd) ops := by
  intro ops
  induction ops with
  | nil => intro l; rfl
  | cons op rest ih =>
    intro l
    show (applyOpsT (applyOpT l op) rest).map Prod.snd
      = applyOps (applyOp (l.map Prod.snd) op) rest
    rw [ih (applyOpT l op), snd_applyOpT]

/-- Untagging the initial tagged list gives back the items. -/
theorem tagItems_map_snd (l : List Item) : (tagItems l).map Prod.snd = l := by
  rw [tagItems, List.map_map]
  have h : Prod.snd ∘ (fun p : Nat × Item => ((some p.1 : Option Nat), p.2))
      = Prod.snd := rfl
  rw [h, List.enum_eq_enumFrom, List.enumFrom_map_snd]

/-- The original positions of a freshly tagged list are `0, …, n-1`. -/
theorem tagItems_filterMap_fst (l : List Item) :
    (tagItems l).filterMap Prod.fst = List.range l.length := by
  rw [tagItems, List.filterMap_map]
  have h : Prod.fst ∘ (fun p : Nat × Item => ((some p.1 : Option Nat), p.2))
      = some ∘ Prod.fst := rfl
  rw [h, List.filterMap_eq_map, List.enum_eq_enumFrom, List.enumFrom_map_fst,
    List.range_eq_range']

/-- Equal projections give equal filterMaps of the projection. -/
theorem filterMap_fst_congr (m1 m2 : List (Option Nat × Item))
    (hm : m1.map Prod.fst = m2.map Prod.fst) :
    m1.filterMap Prod.fst = m2.filterMap Prod.fst := by
  have e : ∀ (m : List (Option Nat × Item)),
      m.filterMap Prod.fst = (m.map Prod.fst).filterMap id := by
    intro m
    rw [List.filterMap_map]
    rfl
  rw [e m1, e m2, hm]

/-- One staging operation only ever deletes original positions from the
tagged trace (edits keep the tag, adds carry no tag). -/
theorem filterMap_fst_applyOpT_sublist (l : List (Option Nat × Item))
    (op : StagingOp) :
    ((applyOpT l op).filterMap Prod.fst).Sublist (l.filterMap Prod.fst) := by
  cases op with
  | setItemField idx f =>
    have hmap : (l.modify (applyFieldT f) idx).map Prod.fst = l.map Prod.fst := by
      have h := map_modify_comm Prod.fst (applyFieldT f) id (fun p => rfl) idx l
      rw [h, modify_id_eq]
    show ((l.modify (applyFieldT f) idx).filterMap Prod.fst).Sublist
      (l.filterMap Prod.fst)
    rw [filterMap_fst_congr _ _ hmap]
  | removeItem idx =>
    exact (removeItemJS_sublist l idx).filterMap Prod.fst
  | addItem =>
    show ((l ++ [((none : Option Nat), defaultNewItem)]).filterMap Prod.fst).Sublist
      (l.filterMap Prod.fst)
    rw [List.filterMap_append]
    simp

/-- A sequence of staging operations only ever deletes original positions
from the tagged trace. -/
theorem filterMap_fst_applyOpsT_sublist :
    ∀ (ops : List StagingOp) (l : List (Option Nat × Item)),
    ((applyOpsT l ops).filterMap Prod.fst).Sublist (l.filterMap Prod.fst) := by
  intro ops
  induction ops with
  | nil =>
    intro l
    exact List.Sublist.refl _
  | cons op rest ih =>
    intro l
    show ((applyOpsT (applyOpT l op) rest).filterMap Prod.fst).Sublist _
    exact (ih (applyOpT l op)).trans (filterMap_fst_applyOpT_sublist l op)

/-- Net length effect of a valid sequence of staging operations. -/
theorem applyOps_length : ∀ (ops : List StagingOp) (items : List Item),
    validOps items ops = true →
    ((applyOps items ops).length : Int)
      = (items.length : Int) + countAdds ops - countRemoves ops := by
  intro ops
  induction ops with
  | nil =>
    intro items _
    show ((items.length : Int)) = (items.length : Int) + countAdds [] - countRemoves []
    simp [countAdds, countRemoves]
  | cons op rest ih =>
    intro items hv
    unfold validOps at hv
    rw [Bool.and_eq_true] at hv
    obtain ⟨hg, hrest⟩ := hv
    have h2 := ih (applyOp items op) hrest
    show ((applyOps (applyOp items op) rest).length : Int)
      = (items.length : Int) + countAdds (op :: rest) - countRemoves (op :: rest)
    cases op with
    | setItemField idx f =>
      have hl : (applyOp items (.setItemField idx f)).length = items.length :=
        List.length_modify ..
      rw [h2, hl,
        show countAdds (StagingOp.setItemField idx f :: rest) = countAdds rest
          from rfl,
        show countRemoves (StagingOp.setItemField idx f :: rest) = countRemoves rest
          from rfl]
    | removeItem idx =>
      have hlt : idx < items.length := of_decide_eq_true hg
      have hl : (applyOp items (.removeItem idx)).length + 1 = items.length :=
        removeItemJS_length_of_lt items idx hlt
      rw [h2,
        show countAdds (StagingOp.removeItem idx :: rest) = countAdds rest from rfl,
        show countRemoves (StagingOp.removeItem idx :: rest) = countRemoves rest + 1
          from rfl]
      omega
    | addItem =>
      have hl : (applyOp items .addItem).length = items.length + 1 := by
        show (items ++ [defaultNewItem]).length = items.length + 1
        simp
      rw [h2, hl,
        show countAdds (StagingOp.addItem :: rest) = countAdds rest + 1 from rfl,
        show countRemoves (StagingOp.addItem :: rest) = countRemoves rest from rfl]
      omega

/-- **C3**: over any valid sequence of `setItemField`/`removeItem`/`addItem`
operations, the final items length is the initial length plus the number of
adds minus the number of removes; running the same sequence on
position-tagged items shows the run is the real one (untagging commutes)
and the surviving original items keep their original relative order (their
tags form a sublist of `0, …, n-1`); and an in-bounds `removeItem i`
removes exactly the item at `i`, shifting later items down by one — with
no guardrail against emptying the list. -/
theorem staging_items_length_and_order (items : List Item)
    (ops : List StagingOp) (hv : validOps items ops = true) :
    ((applyOps items ops).length : Int)
      = (items.length : Int) + countAdds ops - countRemoves ops
    ∧ (applyOpsT (tagItems items) ops).map Prod.snd = applyOps items ops
    ∧ ((applyOpsT (tagItems items) ops).filterMap Prod.fst).Sublist
        (List.range items.length)
    ∧ ∀ i : Nat, i < items.length →
        applyOp items (.removeItem i) = items.take i ++ items.drop (i + 1) := by
  refine ⟨applyOps_length ops items hv, ?_, ?_, ?_⟩
  · rw [snd_applyOpsT ops (tagItems items), tagItems_map_snd]
  · have h := filterMap_fst_applyOpsT_sublist ops (tagItems items)
    rwa [tagItems_filterMap_fst] at h
  · intro i _
    exact removeItemJS_eq_take_drop items i

/-- Witness for `staging_items_length_and_order` on a two-item draft with
one edit, one remove (emptying nothing is required: the remove is of the
last item) and one add. -/
theorem staging_items_length_and_order_witness :
    validOps [itemEx, defaultNewItem]
      [StagingOp.setItemField 0 (ItemField.name "Tea"), StagingOp.removeItem 1,
        StagingOp.addItem] = true
    ∧ ((applyOps [itemEx, defaultNewItem]
        [StagingOp.setItemField 0 (ItemField.name "Tea"), StagingOp.removeItem 1,
          StagingOp.addItem]).length : Int)
      = (([itemEx, defaultNewItem] : List Item).length : Int)
        + countAdds [StagingOp.setItemField 0 (ItemField.name "Tea"),
            StagingOp.removeItem 1, StagingOp.addItem]
        - countRemoves [StagingOp.setItemField 0 (ItemField.name "Tea"),
            StagingOp.removeItem 1, StagingOp.addItem]
    ∧ (applyOpsT (tagItems [itemEx, defaultNewItem])
        [StagingOp.setItemField 0 (ItemField.name "Tea"), StagingOp.removeItem 1,
          StagingOp.addItem]).map Prod.snd
      = applyOps [itemEx, defaultNewItem]
        [StagingOp.setItemField 0 (ItemField.name "Tea"), StagingOp.removeItem 1,
          StagingOp.addItem]
    ∧ ((applyOpsT (tagItems [itemEx, defaultNewItem])
        [StagingOp.setItemField 0 (ItemField.name "Tea"), StagingOp.removeItem 1,
          StagingOp.addItem]).filterMap Prod.fst).Sublist
        (List.range ([itemEx, defaultNewItem] : List Item).length)
    ∧ (1 < ([itemEx, defaultNewItem] : List Item).length
        ∧ applyOp [itemEx, defaultNewItem] (StagingOp.removeItem 1)
          = ([itemEx, defaultNewItem] : List Item).take 1
            ++ ([itemEx, defaultNewItem] : List Item).drop 2) :=
  ⟨by decide,
   (staging_items_length_and_order [itemEx, defaultNewItem]
     [StagingOp.setItemField 0 (ItemField.name "Tea"), StagingOp.removeItem 1,
       StagingOp.addItem] (by decide)).1,
   (staging_items_length_and_order [itemEx, defaultNewItem]
     [StagingOp.setItemField 0 (ItemField.name "Tea"), StagingOp.removeItem 1,
       StagingOp.addItem] (by decide)).2.1,
   (staging_items_length_and_order [itemEx, defaultNewItem]
     [StagingOp.setItemField 0 (ItemField.name "Tea"), StagingOp.removeItem 1,
       StagingOp.addItem] (by decide)).2.2.1,
   by decide,
   (staging_items_length_and_order [itemEx, defaultNewItem]
     [StagingOp.setItemField 0 (ItemField.name "Tea"), StagingOp.removeItem 1,
       StagingOp.addItem] (by decide)).2.2.2 1 (by decide)⟩

end Finex
